import Mathlib

/-!
# Startup sequence of the parrot API server (`main.go`)

A shallow embedding of `main` and `blockAndRetry`.

* Everything the program does to the outside (logging, sleeping, calls into
  the datastore, the router and the HTTP server) is recorded, in program order,
  as a list of `Event`s.
* What the outside answers (the result of `godotenv.Load`, the environment, the
  result of `datastore.NewDatastore`, of each `ds.Ping`, of `ListenAndServe`,
  and the text `Duration.String` produces) is a `World`.
* `blockAndRetry` is an unbounded loop; it is embedded with a fuel argument
  that bounds the number of probe calls, and the result says whether the loop
  returned or is still probing when the fuel ran out.
-/

namespace Parrot

/-! ## Data -/

/-- Go `time.Duration`: a count of nanoseconds. -/
abbrev Duration := Int

/-- Go `time.Second`. -/
def Second : Duration := 1000000000

/-- Go `[]byte`. A Go string and a byte slice are both byte sequences and the
conversions between them copy the content unchanged; the slice is represented
by the string that has the same bytes. -/
structure ByteSlice where
  content : String
  deriving DecidableEq, Repr

/-- Go conversion `[]byte(s)`. -/
def bytesOf (s : String) : ByteSlice := ⟨s⟩

/-- Go conversion `string(b)`. -/
def stringOf (b : ByteSlice) : String := b.content

/-- The handle returned by `datastore.NewDatastore(name, url)`. -/
structure Datastore where
  name : String
  url : String
  deriving DecidableEq, Repr

/-- Go `auth.Provider`. -/
structure Provider where
  Name : String
  SigningKey : ByteSlice
  deriving DecidableEq, Repr

/-- The value returned by `api.NewRouter(ds, ap)`. -/
structure ApiRouter where
  ds : Datastore
  ap : Provider
  deriving DecidableEq, Repr

/-- The middleware values `main` refers to. -/
inductive Middleware
  | RequestID
  | RealIP
  | LoggerRequest
  | StripSlashes
  deriving DecidableEq, Repr

/-- A chi router, as far as `main` builds it: the middleware stack and the
mounted sub-routers, each in registration order. -/
structure Router where
  middlewares : List Middleware
  mounts : List (String × ApiRouter)
  deriving DecidableEq, Repr

/-- Go `chi.NewRouter()`. -/
def NewRouter : Router := ⟨[], []⟩

/-- Go `r.Use(mws...)`: appends to the middleware stack. -/
def Router.Use (r : Router) (mws : List Middleware) : Router :=
  { r with middlewares := r.middlewares ++ mws }

/-- Go `r.Mount(pattern, h)`: attaches a sub-router. -/
def Router.Mount (r : Router) (pattern : String) (h : ApiRouter) : Router :=
  { r with mounts := r.mounts ++ [(pattern, h)] }

/-- Go `http.Server`, the fields `main` sets. -/
structure Server where
  Addr : String
  Handler : Router
  ReadTimeout : Duration
  WriteTimeout : Duration
  MaxHeaderBytes : Nat
  deriving DecidableEq, Repr

/-- Everything `main` does to the outside, one constructor per call. -/
inductive Event
  | dotenvLoad
  | newDatastore (name url : String)
  | ping (err : Option String)
  | logError (msg : String)
  | logInfo (msg : String)
  | logFatal (msg : String)
  | printf (msg : String)
  | sleep (d : Duration)
  | newRouter
  | use (mws : List Middleware)
  | apiNewRouter (ds : Datastore) (ap : Provider)
  | mount (pattern : String) (h : ApiRouter)
  | listenAndServe (s : Server)
  deriving DecidableEq, Repr

/-- What the outside answers to `main`. -/
structure World where
  /-- The error of `godotenv.Load()`, if any. -/
  dotenvErr : Option String
  /-- The process environment once `godotenv.Load()` has run. -/
  environ : String → Option String
  /-- The error of `datastore.NewDatastore`, if any. -/
  newDatastoreErr : Option String
  /-- The error of the `n`-th call of `ds.Ping()` (counting from 0), if any. -/
  pingErr : Nat → Option String
  /-- The error `s.ListenAndServe()` returns with; `none` when it serves forever. -/
  serveErr : Option String
  /-- Go `Duration.String`. -/
  durationString : Duration → String

/-- Go `os.Getenv`: the value, or the empty string when the variable is unset. -/
def Getenv (w : World) (key : String) : String := (w.environ key).getD ""

/-! ## `blockAndRetry` -/

/-- What `blockAndRetry` itself does: it calls the probe (which returns `ok`
after doing `did`), prints, and sleeps. -/
inductive Step (ε : Type)
  | call (ok : Bool) (did : List ε)
  | printf (msg : String)
  | sleep (d : Duration)
  deriving DecidableEq, Repr

/-- A Go `func() bool` closure: from the state it closes over it yields its
result, the new state and what it did on the way. -/
abbrev Probe (σ ε : Type) := σ → Bool × σ × List ε

/-- Where a run of `blockAndRetry` stands. -/
inductive Gate (σ ε : Type)
  /-- The loop has been left. -/
  | returned (s : σ) (steps : List (Step ε))
  /-- The loop is still running; the probe calls allowed by the fuel are used up. -/
  | probing (s : σ) (steps : List (Step ε))
  deriving DecidableEq, Repr

/-- The text `fmt.Printf("retrying in %s...\n", d.String())` writes. -/
def retryNotice (str : Duration → String) (d : Duration) : String :=
  "retrying in " ++ str d ++ "...\n"

/-- Go `blockAndRetry(d, fn)`: `for !fn() { Printf(...); Sleep(d) }`.
`fuel` bounds the number of calls of `fn`; `acc` holds the steps made so far. -/
def blockAndRetry {σ ε : Type} (str : Duration → String) (d : Duration) (fn : Probe σ ε) :
    Nat → σ → List (Step ε) → Gate σ ε
  | 0, s, acc => .probing s acc
  | fuel + 1, s, acc =>
    match fn s with
    | (true, s', did) => .returned s' (acc ++ [.call true did])
    | (false, s', did) =>
      blockAndRetry str d fn fuel s'
        (acc ++ [.call false did, .printf (retryNotice str d), .sleep d])

/-! ## `main` -/

/-- The closure `main` hands to `blockAndRetry`; its state is the number of
`ds.Ping()` calls made so far. -/
def pingProbe (w : World) : Probe Nat Event := fun n =>
  match w.pingErr n with
  | some err =>
    (false, n + 1, [.ping (some err), .logError ("failed to ping datastore.\nerr: " ++ err)])
  | none => (true, n + 1, [.ping none])

/-- The events of one step of the gate, as they appear in the log of `main`. -/
def Step.events : Step Event → List Event
  | .call _ did => did
  | .printf msg => [.printf msg]
  | .sleep d => [.sleep d]

/-- The events of a run of the gate. -/
def stepsEvents (steps : List (Step Event)) : List Event :=
  steps.flatMap Step.events

/-- How a run of `main` ends. -/
inductive Outcome
  /-- `logrus.Fatal` was called: the message is logged and the process exits. -/
  | exited
  /-- Execution is inside `ListenAndServe`, which does not return. -/
  | serving
  /-- Execution is inside `blockAndRetry`; the probe calls allowed by the fuel are used up. -/
  | waiting
  deriving DecidableEq, Repr

/-- A run of `main`: how it ends and what it did, oldest event first. -/
structure Run where
  outcome : Outcome
  log : List Event
  deriving DecidableEq, Repr

/-- The part of `main` after `blockAndRetry` has returned (lines 55 to 96).
The second test, before the message about the domain, is on `apiKey`, as in
the source (line 71). -/
def serve (w : World) (ds : Datastore) (log : List Event) : Run :=
  let mainRouter := NewRouter
  let mainRouter := mainRouter.Use [.RequestID, .RealIP, .LoggerRequest, .StripSlashes]
  let log := log ++ [.newRouter, .use [.RequestID, .RealIP, .LoggerRequest, .StripSlashes]]
  let apiKey := Getenv w "PARROT_API_SIGNING_KEY"
  if apiKey = "" then ⟨.exited, log ++ [.logFatal "no api key set in env"]⟩ else
  let domain := Getenv w "PARROT_DOMAIN"
  if apiKey = "" then ⟨.exited, log ++ [.logFatal "no domain set in env"]⟩ else
  let ap : Provider := { Name := stringOf (bytesOf domain), SigningKey := bytesOf apiKey }
  let apiRouter : ApiRouter := ⟨ds, ap⟩
  let mainRouter := mainRouter.Mount "/api" apiRouter
  let addr := ":8080"
  let s : Server :=
    { Addr := addr
      Handler := mainRouter
      ReadTimeout := 10 * Second
      WriteTimeout := 10 * Second
      MaxHeaderBytes := 1 <<< 20 }
  let log := log ++ [.apiNewRouter ds ap, .mount "/api" apiRouter,
    .logInfo ("Listening on " ++ addr), .listenAndServe s]
  match w.serveErr with
  | some err => ⟨.exited, log ++ [.logFatal err]⟩
  | none => ⟨.serving, log⟩

/-- Go `main`. `fuel` bounds the number of probe calls inside `blockAndRetry`.
The deferred `ds.Close()` never runs: `main` is left only through
`logrus.Fatal`, which exits the process. -/
def main (w : World) (fuel : Nat) : Run :=
  let log := [Event.dotenvLoad]
  match w.dotenvErr with
  | some err => ⟨.exited, log ++ [.logFatal err]⟩
  | none =>
  let dbName := Getenv w "PARROT_DB_NAME"
  let dbURL := Getenv w "PARROT_DB_URL"
  if dbName = "" ∨ dbURL = "" then ⟨.exited, log ++ [.logFatal "no db set in env"]⟩ else
  let log := log ++ [.newDatastore dbName dbURL]
  match w.newDatastoreErr with
  | some err => ⟨.exited, log ++ [.logFatal err]⟩
  | none =>
  let ds : Datastore := ⟨dbName, dbURL⟩
  match blockAndRetry w.durationString (5 * Second) (pingProbe w) fuel 0 [] with
  | .probing _ steps => ⟨.waiting, log ++ stepsEvents steps⟩
  | .returned _ steps => serve w ds (log ++ stepsEvents steps)

/-! ## Sample worlds -/

/-- An environment given by a list of bindings. -/
def envOf (bindings : List (String × String)) : String → Option String :=
  fun key => bindings.lookup key

/-- A world in which everything is in place: the four values are set, the
datastore answers the third ping, and the server serves. -/
def sampleWorld : World where
  dotenvErr := none
  environ := envOf [("PARROT_DB_NAME", "parrot"), ("PARROT_DB_URL", "postgres://db/parrot"),
    ("PARROT_API_SIGNING_KEY", "secret"), ("PARROT_DOMAIN", "parrot.example")]
  newDatastoreErr := none
  pingErr := fun n => if n < 2 then some "connection refused" else none
  serveErr := none
  durationString := fun _ => "5s"

/-! ## Reading a run of the gate -/

section Readings

variable {σ ε : Type}

/-- The state the probe closes over once it has been called `i` times. -/
def stateAt (fn : Probe σ ε) : Nat → σ → σ
  | 0, s => s
  | i + 1, s => stateAt fn i (fn s).2.1

/-- The result of call number `i` (counting from 0) of the probe. -/
def resultAt (fn : Probe σ ε) (i : Nat) (s : σ) : Bool := (fn (stateAt fn i s)).1

/-- What call number `i` (counting from 0) of the probe does. -/
def didAt (fn : Probe σ ε) (i : Nat) (s : σ) : List ε := (fn (stateAt fn i s)).2.2

/-- The successive results of the probe are `k` failures followed by a success. -/
def FailsThenSucceeds (fn : Probe σ ε) (s : σ) (k : Nat) : Prop :=
  (∀ i, i < k → resultAt fn i s = false) ∧ resultAt fn k s = true

/-- The probe fails on every call. -/
def AlwaysFails (fn : Probe σ ε) (s : σ) : Prop := ∀ i, resultAt fn i s = false

/-- The steps of `n` rounds of the loop body: a call, the notice, the sleep. -/
def failedRounds (str : Duration → String) (d : Duration) (fn : Probe σ ε) :
    Nat → σ → List (Step ε)
  | 0, _ => []
  | n + 1, s =>
    [.call false (fn s).2.2, .printf (retryNotice str d), .sleep d]
      ++ failedRounds str d fn n (fn s).2.1

/-- The results of the probe calls among the steps, in order. -/
def callResults : List (Step ε) → List Bool
  | [] => []
  | .call ok _ :: rest => ok :: callResults rest
  | _ :: rest => callResults rest

/-- The durations slept among the steps, in order. -/
def sleeps : List (Step ε) → List Duration
  | [] => []
  | .sleep d :: rest => d :: sleeps rest
  | _ :: rest => sleeps rest

/-- The texts printed among the steps, in order. -/
def notices : List (Step ε) → List String
  | [] => []
  | .printf msg :: rest => msg :: notices rest
  | _ :: rest => notices rest

/-- Whether the gate has returned. -/
def Gate.hasReturned : Gate σ ε → Bool
  | .returned _ _ => true
  | .probing _ _ => false

end Readings

/-! ## Reading a run of `main` -/

/-- The four middleware of the main router, in the order `main` lists them. -/
def fourStages : List Middleware := [.RequestID, .RealIP, .LoggerRequest, .StripSlashes]

/-- A call of `ds.Ping()`. -/
def Event.isPing : Event → Bool
  | .ping _ => true
  | _ => false

/-- A call of `logrus.Fatal`. -/
def Event.isFatal : Event → Bool
  | .logFatal _ => true
  | _ => false

/-- A call of `logrus.Error`. -/
def Event.isError : Event → Bool
  | .logError _ => true
  | _ => false

/-- A call of `datastore.NewDatastore`. -/
def Event.isNewDatastore : Event → Bool
  | .newDatastore _ _ => true
  | _ => false

/-- A call of `ListenAndServe`. -/
def Event.isListen : Event → Bool
  | .listenAndServe _ => true
  | _ => false

/-- A call of `mainRouter.Use`. -/
def Event.isUse : Event → Bool
  | .use _ => true
  | _ => false

/-- What a failed round of the gate leaves in the log: a ping that failed, its
error entry, the retry notice, the sleep. -/
def Event.isRetry : Event → Bool
  | .ping (some _) => true
  | .logError _ => true
  | .printf _ => true
  | .sleep _ => true
  | _ => false

/-- The events of assembling the router and launching the server. -/
def Event.isRouting : Event → Bool
  | .newRouter => true
  | .use _ => true
  | .apiNewRouter _ _ => true
  | .mount _ _ => true
  | .listenAndServe _ => true
  | _ => false

/-- The datastore handle for the names found in the environment. -/
def envDatastore (w : World) : Datastore :=
  ⟨Getenv w "PARROT_DB_NAME", Getenv w "PARROT_DB_URL"⟩

/-- The auth provider for the values found in the environment. -/
def envProvider (w : World) : Provider :=
  ⟨Getenv w "PARROT_DOMAIN", bytesOf (Getenv w "PARROT_API_SIGNING_KEY")⟩

/-- The server expected for a given API router: the fixed settings around the
main router with that API router mounted. -/
def serverFor (h : ApiRouter) : Server :=
  { Addr := ":8080"
    Handler := ⟨fourStages, [("/api", h)]⟩
    ReadTimeout := 10000000000
    WriteTimeout := 10000000000
    MaxHeaderBytes := 1048576 }

/-- The log up to the gate, when nothing failed. -/
def startEvents (w : World) : List Event :=
  [.dotenvLoad, .newDatastore (Getenv w "PARROT_DB_NAME") (Getenv w "PARROT_DB_URL")]

/-- What `n` failed rounds of the gate leave in the log of `main`, starting
with ping number `first`. -/
def retryEvents (w : World) (n first : Nat) : List Event :=
  stepsEvents (failedRounds w.durationString (5 * Second) (pingProbe w) n first)

/-- The log from the successful ping up to the router with its middleware. -/
def readyEvents : List Event := [.ping none, .newRouter, .use fourStages]

/-- The log from the API router up to the launch of the server. -/
def launchEvents (w : World) : List Event :=
  [.apiNewRouter (envDatastore w) (envProvider w),
   .mount "/api" ⟨envDatastore w, envProvider w⟩,
   .logInfo "Listening on :8080",
   .listenAndServe (serverFor ⟨envDatastore w, envProvider w⟩)]

/-- The ways a run of `main` with at most `fuel` probe calls can go. -/
inductive RunShape (w : World) (fuel : Nat) : Run → Prop
  | dotenvFailed (err : String) (hload : w.dotenvErr = some err) :
      RunShape w fuel ⟨.exited, [.dotenvLoad, .logFatal err]⟩
  | noDb (hload : w.dotenvErr = none)
      (hdb : Getenv w "PARROT_DB_NAME" = "" ∨ Getenv w "PARROT_DB_URL" = "") :
      RunShape w fuel ⟨.exited, [.dotenvLoad, .logFatal "no db set in env"]⟩
  | datastoreFailed (err : String) (hload : w.dotenvErr = none)
      (hdb : ¬ (Getenv w "PARROT_DB_NAME" = "" ∨ Getenv w "PARROT_DB_URL" = ""))
      (hds : w.newDatastoreErr = some err) :
      RunShape w fuel ⟨.exited, startEvents w ++ [.logFatal err]⟩
  | waiting (hload : w.dotenvErr = none)
      (hdb : ¬ (Getenv w "PARROT_DB_NAME" = "" ∨ Getenv w "PARROT_DB_URL" = ""))
      (hds : w.newDatastoreErr = none)
      (hfail : ∀ i, i < fuel → w.pingErr i ≠ none) :
      RunShape w fuel ⟨.waiting, startEvents w ++ retryEvents w fuel 0⟩
  | noKey (k : Nat) (hload : w.dotenvErr = none)
      (hdb : ¬ (Getenv w "PARROT_DB_NAME" = "" ∨ Getenv w "PARROT_DB_URL" = ""))
      (hds : w.newDatastoreErr = none)
      (hfail : ∀ i, i < k → w.pingErr i ≠ none) (hok : w.pingErr k = none) (hk : k < fuel)
      (hkey : Getenv w "PARROT_API_SIGNING_KEY" = "") :
      RunShape w fuel ⟨.exited, startEvents w ++ retryEvents w k 0 ++ readyEvents
        ++ [.logFatal "no api key set in env"]⟩
  | serving (k : Nat) (hload : w.dotenvErr = none)
      (hdb : ¬ (Getenv w "PARROT_DB_NAME" = "" ∨ Getenv w "PARROT_DB_URL" = ""))
      (hds : w.newDatastoreErr = none)
      (hfail : ∀ i, i < k → w.pingErr i ≠ none) (hok : w.pingErr k = none) (hk : k < fuel)
      (hkey : Getenv w "PARROT_API_SIGNING_KEY" ≠ "") (hserve : w.serveErr = none) :
      RunShape w fuel ⟨.serving, startEvents w ++ retryEvents w k 0 ++ readyEvents
        ++ launchEvents w⟩
  | serveFailed (k : Nat) (err : String) (hload : w.dotenvErr = none)
      (hdb : ¬ (Getenv w "PARROT_DB_NAME" = "" ∨ Getenv w "PARROT_DB_URL" = ""))
      (hds : w.newDatastoreErr = none)
      (hfail : ∀ i, i < k → w.pingErr i ≠ none) (hok : w.pingErr k = none) (hk : k < fuel)
      (hkey : Getenv w "PARROT_API_SIGNING_KEY" ≠ "") (hserve : w.serveErr = some err) :
      RunShape w fuel ⟨.exited, startEvents w ++ retryEvents w k 0 ++ readyEvents
        ++ launchEvents w ++ [.logFatal err]⟩

/-- What a request has gone through, in order. -/
inductive Stage
  | middleware (m : Middleware)
  | api (h : ApiRouter)
  | notFound
  deriving DecidableEq, Repr

/-- Modelled from the spec: an HTTP handler of the chi library
(`github.com/pressly/chi`), whose code is not part of the sources at hand. A
handler is seen only through the stages a request passes: given the stages
passed so far, it yields the stages passed once the request is handled. -/
abbrev Handler := List Stage → List Stage

/-- Modelled from the spec: a middleware of the chi library wraps the next
handler and runs before it (section 4.3: the chain is "applied to every
inbound request", in the order given). -/
def Middleware.wrap (m : Middleware) (next : Handler) : Handler :=
  fun passed => next (passed ++ [.middleware m])

/-- Modelled from the spec: routing in a chi router. The request goes to the
first mounted sub-router whose pattern its path matches (`selects pattern
path`), and to nothing if there is none. -/
def Router.route (r : Router) (selects : String → String → Bool) (path : String) : Handler :=
  fun passed =>
    match r.mounts.find? (fun m => selects m.1 path) with
    | some m => passed ++ [.api m.2]
    | none => passed ++ [.notFound]

/-- Modelled from the spec: serving a request on a chi router. The middleware
stack is wrapped around the routing, the first registered outermost (section
4.3: "Only after this chain is the API sub-tree mounted"). -/
def Router.ServeHTTP (r : Router) (selects : String → String → Bool) (path : String) :
    List Stage :=
  (r.middlewares.foldr Middleware.wrap (r.route selects path)) []

/-- A call of `mainRouter.Mount`. -/
def Event.isMount : Event → Bool
  | .mount _ _ => true
  | _ => false

/-- The pattern of a mount matches a path when the path is the pattern or
lies below it. -/
def underPattern (pattern path : String) : Bool :=
  path == pattern || path.data.take (pattern.data.length + 1) == (pattern ++ "/").data

/-- The names of the four required values. -/
def requiredKeys : List String :=
  ["PARROT_DB_NAME", "PARROT_DB_URL", "PARROT_API_SIGNING_KEY", "PARROT_DOMAIN"]

/-- All four required values are present and non-empty. -/
def allSet (w : World) : Bool := requiredKeys.all (fun key => Getenv w key != "")

/-! ## More sample worlds -/

/-- As `sampleWorld`, the datastore answering the first ping, with the given
environment. -/
def worldWith (bindings : List (String × String)) : World :=
  { sampleWorld with environ := envOf bindings, pingErr := fun _ => none }

/-- The signing key is set to the empty string, all else is in place. -/
def noKeyWorld : World :=
  worldWith [("PARROT_DB_NAME", "parrot"), ("PARROT_DB_URL", "postgres://db/parrot"),
    ("PARROT_API_SIGNING_KEY", ""), ("PARROT_DOMAIN", "parrot.example")]

/-- The domain is set to the empty string, all else is in place. -/
def noDomainWorld : World :=
  worldWith [("PARROT_DB_NAME", "parrot"), ("PARROT_DB_URL", "postgres://db/parrot"),
    ("PARROT_API_SIGNING_KEY", "secret"), ("PARROT_DOMAIN", "")]

/-- The domain is not set at all, all else is in place. -/
def unsetDomainWorld : World :=
  worldWith [("PARROT_DB_NAME", "parrot"), ("PARROT_DB_URL", "postgres://db/parrot"),
    ("PARROT_API_SIGNING_KEY", "secret")]

/-- The datastore name is not set, all else is in place. -/
def noDbNameWorld : World :=
  worldWith [("PARROT_DB_URL", "postgres://db/parrot"),
    ("PARROT_API_SIGNING_KEY", "secret"), ("PARROT_DOMAIN", "parrot.example")]

/-- All four values are set, but `godotenv.Load` fails. -/
def loadFailsWorld : World :=
  { sampleWorld with dotenvErr := some "open .env: no such file or directory" }

/-- All four values are set, but `datastore.NewDatastore` fails. -/
def datastoreFailsWorld : World :=
  { sampleWorld with newDatastoreErr := some "cannot open datastore" }

/-- All four values are set, but the datastore never answers a ping. -/
def silentWorld : World :=
  { sampleWorld with pingErr := fun _ => some "connection refused" }

/-- A probe that fails whatever happens. -/
def failingProbe : Probe Unit Event := fun s => (false, s, [])

/-! ## The gate: lemmas -/

section GateLemmas

variable {σ ε : Type}

theorem stateAt_succ (fn : Probe σ ε) (i : Nat) (s : σ) :
    stateAt fn (i + 1) s = (fn (stateAt fn i s)).2.1 := by
  induction i generalizing s with
  | zero => rfl
  | succ i ih =>
    show stateAt fn (i + 1) (fn s).2.1 = _
    rw [ih]
    rfl

theorem blockAndRetry_success (str : Duration → String) (d : Duration) (fn : Probe σ ε)
    (fuel : Nat) (s : σ) (acc : List (Step ε)) (h : (fn s).1 = true) :
    blockAndRetry str d fn (fuel + 1) s acc
      = .returned (fn s).2.1 (acc ++ [.call true (fn s).2.2]) := by
  rcases hfs : fn s with ⟨ok, t, did⟩
  rw [hfs] at h
  simp only at h
  subst h
  simp [blockAndRetry, hfs]

theorem blockAndRetry_failure (str : Duration → String) (d : Duration) (fn : Probe σ ε)
    (fuel : Nat) (s : σ) (acc : List (Step ε)) (h : (fn s).1 = false) :
    blockAndRetry str d fn (fuel + 1) s acc
      = blockAndRetry str d fn fuel (fn s).2.1
          (acc ++ [.call false (fn s).2.2, .printf (retryNotice str d), .sleep d]) := by
  rcases hfs : fn s with ⟨ok, t, did⟩
  rw [hfs] at h
  simp only at h
  subst h
  simp [blockAndRetry, hfs]

/-- While the probe fails, the loop goes round: `n` failures use up `n` calls. -/
theorem blockAndRetry_rounds (str : Duration → String) (d : Duration) (fn : Probe σ ε) :
    ∀ (n m : Nat) (s : σ) (acc : List (Step ε)),
      (∀ i, i < n → resultAt fn i s = false) →
      blockAndRetry str d fn (n + m) s acc
        = blockAndRetry str d fn m (stateAt fn n s) (acc ++ failedRounds str d fn n s) := by
  intro n
  induction n with
  | zero => intro m s acc _; simp [stateAt, failedRounds]
  | succ n ih =>
    intro m s acc h
    have h0 : (fn s).1 = false := h 0 (Nat.succ_pos n)
    have hrest : ∀ i, i < n → resultAt fn i (fn s).2.1 = false :=
      fun i hi => h (i + 1) (Nat.succ_lt_succ hi)
    have hfuel : n + 1 + m = (n + m) + 1 := by omega
    rw [hfuel, blockAndRetry_failure str d fn (n + m) s acc h0, ih m _ _ hrest]
    simp [stateAt, failedRounds]

/-- The run of the gate on a probe that fails `k` times and then succeeds. -/
theorem blockAndRetry_run (str : Duration → String) (d : Duration) (fn : Probe σ ε) (s : σ)
    (k fuel : Nat) (hk : FailsThenSucceeds fn s k) (hfuel : k < fuel) :
    blockAndRetry str d fn fuel s []
      = .returned (stateAt fn (k + 1) s)
          (failedRounds str d fn k s ++ [.call true (didAt fn k s)]) := by
  obtain ⟨m, rfl⟩ : ∃ m, fuel = k + (m + 1) := ⟨fuel - k - 1, by omega⟩
  rw [blockAndRetry_rounds str d fn k (m + 1) s [] hk.1,
    blockAndRetry_success str d fn m _ _ hk.2, stateAt_succ]
  simp [didAt]

/-- The run of the gate on a probe that keeps failing. -/
theorem blockAndRetry_stuck (str : Duration → String) (d : Duration) (fn : Probe σ ε) (s : σ)
    (n : Nat) (h : ∀ i, i < n → resultAt fn i s = false) :
    blockAndRetry str d fn n s []
      = .probing (stateAt fn n s) (failedRounds str d fn n s) := by
  have := blockAndRetry_rounds str d fn n 0 s [] h
  simpa [blockAndRetry] using this

theorem callResults_append (a b : List (Step ε)) :
    callResults (a ++ b) = callResults a ++ callResults b := by
  induction a with
  | nil => rfl
  | cons x a ih => cases x <;> simp [callResults, ih]

theorem sleeps_append (a b : List (Step ε)) : sleeps (a ++ b) = sleeps a ++ sleeps b := by
  induction a with
  | nil => rfl
  | cons x a ih => cases x <;> simp [sleeps, ih]

theorem notices_append (a b : List (Step ε)) : notices (a ++ b) = notices a ++ notices b := by
  induction a with
  | nil => rfl
  | cons x a ih => cases x <;> simp [notices, ih]

theorem callResults_failedRounds (str : Duration → String) (d : Duration) (fn : Probe σ ε)
    (n : Nat) (s : σ) : callResults (failedRounds str d fn n s) = List.replicate n false := by
  induction n generalizing s with
  | zero => rfl
  | succ n ih => simp [failedRounds, callResults, ih, List.replicate_succ]

theorem sleeps_failedRounds (str : Duration → String) (d : Duration) (fn : Probe σ ε)
    (n : Nat) (s : σ) : sleeps (failedRounds str d fn n s) = List.replicate n d := by
  induction n generalizing s with
  | zero => rfl
  | succ n ih => simp [failedRounds, sleeps, ih, List.replicate_succ]

theorem notices_failedRounds (str : Duration → String) (d : Duration) (fn : Probe σ ε)
    (n : Nat) (s : σ) :
    notices (failedRounds str d fn n s) = List.replicate n (retryNotice str d) := by
  induction n generalizing s with
  | zero => rfl
  | succ n ih => simp [failedRounds, notices, ih, List.replicate_succ]

theorem length_failedRounds (str : Duration → String) (d : Duration) (fn : Probe σ ε)
    (n : Nat) (s : σ) : (failedRounds str d fn n s).length = 3 * n := by
  induction n generalizing s with
  | zero => rfl
  | succ n ih => simp [failedRounds, ih]; omega

/-- Round `i` of the loop sits at positions `3 * i`, `3 * i + 1`, `3 * i + 2`. -/
theorem failedRounds_at (str : Duration → String) (d : Duration) (fn : Probe σ ε) :
    ∀ (n i : Nat) (s : σ), i < n →
      (failedRounds str d fn n s)[3 * i]? = some (.call false (didAt fn i s)) ∧
      (failedRounds str d fn n s)[3 * i + 1]? = some (.printf (retryNotice str d)) ∧
      (failedRounds str d fn n s)[3 * i + 2]? = some (.sleep d) := by
  intro n
  induction n with
  | zero => intro i s hi; omega
  | succ n ih =>
    intro i s hi
    cases i with
    | zero => simp [failedRounds, didAt, stateAt]
    | succ i =>
      have h3 : 3 * (i + 1) = 3 * i + 3 := by omega
      have := ih i (fn s).2.1 (by omega)
      rw [h3]
      simpa [failedRounds, didAt, stateAt] using this

end GateLemmas


/-! ## `main`: lemmas -/

theorem pingProbe_state (w : World) (n : Nat) : (pingProbe w n).2.1 = n + 1 := by
  unfold pingProbe; split <;> rfl

theorem pingProbe_result (w : World) (n : Nat) :
    (pingProbe w n).1 = true ↔ w.pingErr n = none := by
  unfold pingProbe; split <;> simp_all

theorem pingProbe_stateAt (w : World) (i n : Nat) : stateAt (pingProbe w) i n = n + i := by
  induction i generalizing n with
  | zero => rfl
  | succ i ih =>
    show stateAt (pingProbe w) i (pingProbe w n).2.1 = _
    rw [pingProbe_state, ih]; omega

theorem pingProbe_resultAt (w : World) (i : Nat) :
    resultAt (pingProbe w) i 0 = true ↔ w.pingErr i = none := by
  unfold resultAt
  rw [pingProbe_stateAt, Nat.zero_add]
  exact pingProbe_result w i

theorem pingProbe_failsThenSucceeds (w : World) (k : Nat)
    (hfail : ∀ i, i < k → w.pingErr i ≠ none) (hok : w.pingErr k = none) :
    FailsThenSucceeds (pingProbe w) 0 k := by
  refine ⟨fun i hi => ?_, (pingProbe_resultAt w k).2 hok⟩
  cases h : resultAt (pingProbe w) i 0
  · rfl
  · exact absurd ((pingProbe_resultAt w i).1 h) (hfail i hi)

theorem pingProbe_didAt_ok (w : World) (k : Nat) (hok : w.pingErr k = none) :
    didAt (pingProbe w) k 0 = [.ping none] := by
  unfold didAt
  rw [pingProbe_stateAt, Nat.zero_add]
  simp [pingProbe, hok]

theorem stepsEvents_append (a b : List (Step Event)) :
    stepsEvents (a ++ b) = stepsEvents a ++ stepsEvents b := by
  simp [stepsEvents]

theorem serve_eq (w : World) (log : List Event) :
    serve w (envDatastore w) log =
      if Getenv w "PARROT_API_SIGNING_KEY" = "" then
        ⟨.exited, log ++ [.newRouter, .use fourStages] ++ [.logFatal "no api key set in env"]⟩
      else match w.serveErr with
        | some err =>
          ⟨.exited, log ++ [.newRouter, .use fourStages] ++ launchEvents w ++ [.logFatal err]⟩
        | none => ⟨.serving, log ++ [.newRouter, .use fourStages] ++ launchEvents w⟩ := by
  unfold serve
  by_cases hkey : Getenv w "PARROT_API_SIGNING_KEY" = ""
  · simp [hkey, fourStages]
  · simp only [hkey, if_false]
    cases w.serveErr <;>
      simp [launchEvents, envProvider, envDatastore, serverFor, fourStages,
        NewRouter, Router.Use, Router.Mount, stringOf, bytesOf, Second]

/-- Every run of `main` has one of the shapes of `RunShape`. -/
theorem main_shape (w : World) (fuel : Nat) : RunShape w fuel (main w fuel) := by
  unfold main
  cases hload : w.dotenvErr with
  | some err => exact .dotenvFailed err hload
  | none =>
    simp only
    by_cases hdb : Getenv w "PARROT_DB_NAME" = "" ∨ Getenv w "PARROT_DB_URL" = ""
    · rw [if_pos hdb]; exact .noDb hload hdb
    · rw [if_neg hdb]
      cases hds : w.newDatastoreErr with
      | some err => exact .datastoreFailed err hload hdb hds
      | none =>
        simp only
        by_cases hex : ∃ k, k < fuel ∧ w.pingErr k = none
        · classical
          have hk := Nat.find_spec hex
          have hmin : ∀ i, i < Nat.find hex → w.pingErr i ≠ none := fun i hi hnone =>
            Nat.find_min hex hi ⟨lt_trans hi hk.1, hnone⟩
          rw [blockAndRetry_run _ _ _ _ _ _ (pingProbe_failsThenSucceeds w _ hmin hk.2) hk.1]
          simp only
          have hd : Datastore.mk (Getenv w "PARROT_DB_NAME") (Getenv w "PARROT_DB_URL")
              = envDatastore w := rfl
          rw [hd, serve_eq, stepsEvents_append, pingProbe_didAt_ok w _ hk.2]
          by_cases hkey : Getenv w "PARROT_API_SIGNING_KEY" = ""
          · rw [if_pos hkey]
            have := @RunShape.noKey w fuel (Nat.find hex) hload hdb hds hmin hk.2 hk.1 hkey
            simpa [startEvents, retryEvents, readyEvents, stepsEvents, Step.events] using this
          · rw [if_neg hkey]
            cases hserve : w.serveErr with
            | some err =>
              have := @RunShape.serveFailed w fuel (Nat.find hex) err hload hdb hds hmin
                hk.2 hk.1 hkey hserve
              simpa [startEvents, retryEvents, readyEvents, stepsEvents, Step.events] using this
            | none =>
              have := @RunShape.serving w fuel (Nat.find hex) hload hdb hds hmin
                hk.2 hk.1 hkey hserve
              simpa [startEvents, retryEvents, readyEvents, stepsEvents, Step.events] using this
        · have hfail : ∀ i, i < fuel → w.pingErr i ≠ none := fun i hi hnone =>
            hex ⟨i, hi, hnone⟩
          have hres : ∀ i, i < fuel → resultAt (pingProbe w) i 0 = false := fun i hi => by
            cases h : resultAt (pingProbe w) i 0
            · rfl
            · exact absurd ((pingProbe_resultAt w i).1 h) (hfail i hi)
          rw [blockAndRetry_stuck _ _ _ _ _ hres]
          exact .waiting hload hdb hds hfail

theorem isRetry_not_routing (e : Event) (h : e.isRetry = true) : e.isRouting = false := by
  cases e <;> simp_all [Event.isRetry, Event.isRouting]

theorem isRetry_not_fatal (e : Event) (h : e.isRetry = true) : e.isFatal = false := by
  cases e <;> simp_all [Event.isRetry, Event.isFatal]

theorem retryEvents_succ (w : World) (n first : Nat) :
    retryEvents w (n + 1) first
      = (pingProbe w first).2.2
          ++ [.printf (retryNotice w.durationString (5 * Second)), .sleep (5 * Second)]
          ++ retryEvents w n (first + 1) := by
  simp [retryEvents, failedRounds, stepsEvents, Step.events, pingProbe_state]

/-- Failed rounds leave nothing in the log but failed pings, their error
entries, notices and sleeps. -/
theorem retryEvents_isRetry (w : World) :
    ∀ (n first : Nat), (∀ i, i < n → w.pingErr (first + i) ≠ none) →
      ∀ e, e ∈ retryEvents w n first → e.isRetry = true := by
  intro n
  induction n with
  | zero => intro first _ e he; simp [retryEvents, failedRounds, stepsEvents] at he
  | succ n ih =>
    intro first h e he
    rw [retryEvents_succ] at he
    have h0 : w.pingErr first ≠ none := by simpa using h 0 (Nat.succ_pos n)
    have hrest : ∀ i, i < n → w.pingErr (first + 1 + i) ≠ none := fun i hi => by
      have := h (i + 1) (Nat.succ_lt_succ hi)
      rwa [show first + (i + 1) = first + 1 + i by omega] at this
    obtain ⟨err, herr⟩ : ∃ err, w.pingErr first = some err := by
      cases hp : w.pingErr first with
      | none => exact absurd hp h0
      | some err => exact ⟨err, rfl⟩
    simp only [pingProbe, herr, List.mem_append, List.mem_cons, List.mem_singleton,
      List.not_mem_nil, or_false] at he
    rcases he with ((he | he) | he | he) | he
    · subst he; rfl
    · subst he; rfl
    · subst he; rfl
    · subst he; rfl
    · exact ih (first + 1) hrest e he

theorem retryEvents_isRetry_zero (w : World) (n : Nat) (h : ∀ i, i < n → w.pingErr i ≠ none) :
    ∀ e, e ∈ retryEvents w n 0 → e.isRetry = true :=
  retryEvents_isRetry w n 0 (by simpa using h)

/-! ## The gate: results -/

/-- C1: for every interval `d` and every probe whose successive results are `k`
failures followed by a success, `blockAndRetry` (given room for more than `k`
calls) returns; it has then called the probe exactly `k + 1` times, the last
call being the successful one and the last thing it did, and it has slept
exactly `k` times, each time for `d`. -/
theorem blockAndRetry_calls_and_sleeps {σ ε : Type} (str : Duration → String) (d : Duration)
    (fn : Probe σ ε) (s : σ) (k fuel : Nat) (hk : FailsThenSucceeds fn s k) (hfuel : k < fuel) :
    ∃ steps, blockAndRetry str d fn fuel s [] = .returned (stateAt fn (k + 1) s) steps ∧
      callResults steps = List.replicate k false ++ [true] ∧
      (callResults steps).length = k + 1 ∧
      sleeps steps = List.replicate k d ∧
      (sleeps steps).length = k ∧
      steps.getLast? = some (.call true (didAt fn k s)) := by
  refine ⟨_, blockAndRetry_run str d fn s k fuel hk hfuel, ?_, ?_, ?_, ?_, ?_⟩
  · simp [callResults_append, callResults_failedRounds, callResults]
  · simp [callResults_append, callResults_failedRounds, callResults]
  · simp [sleeps_append, sleeps_failedRounds, sleeps]
  · simp [sleeps_append, sleeps_failedRounds, sleeps]
  · simp

theorem blockAndRetry_calls_and_sleeps_witness :
    FailsThenSucceeds (pingProbe sampleWorld) 0 2 ∧
    ∃ steps, blockAndRetry (fun _ => "1s") Second (pingProbe sampleWorld) 3 0 []
        = .returned (stateAt (pingProbe sampleWorld) (2 + 1) 0) steps ∧
      callResults steps = List.replicate 2 false ++ [true] ∧
      (callResults steps).length = 2 + 1 ∧
      sleeps steps = List.replicate 2 Second ∧
      (sleeps steps).length = 2 ∧
      steps.getLast? = some (.call true (didAt (pingProbe sampleWorld) 2 0)) :=
  have hk : FailsThenSucceeds (pingProbe sampleWorld) 0 2 := by
    unfold FailsThenSucceeds; decide
  ⟨hk, blockAndRetry_calls_and_sleeps (fun _ => "1s") Second (pingProbe sampleWorld) 0 2 3 hk
    (by decide)⟩

/-- C4: if the probe fails on every call, `blockAndRetry` does not return,
however many calls it is given room for: after `n` calls it is still probing,
having made `n` failed calls and `n` sleeps of `d`. -/
theorem blockAndRetry_blocks_forever {σ ε : Type} (str : Duration → String) (d : Duration)
    (fn : Probe σ ε) (s : σ) (h : AlwaysFails fn s) (n : Nat) :
    ∃ steps, blockAndRetry str d fn n s [] = .probing (stateAt fn n s) steps ∧
      (blockAndRetry str d fn n s []).hasReturned = false ∧
      callResults steps = List.replicate n false ∧
      sleeps steps = List.replicate n d := by
  have hrun := blockAndRetry_stuck str d fn s n (fun i _ => h i)
  refine ⟨_, hrun, ?_, callResults_failedRounds str d fn n s, sleeps_failedRounds str d fn n s⟩
  rw [hrun]; rfl

theorem blockAndRetry_blocks_forever_witness :
    AlwaysFails failingProbe () ∧
    ∃ steps, blockAndRetry (fun _ => "1s") Second failingProbe 4 () []
        = .probing (stateAt failingProbe 4 ()) steps ∧
      (blockAndRetry (fun _ => "1s") Second failingProbe 4 () []).hasReturned = false ∧
      callResults steps = List.replicate 4 false ∧
      sleeps steps = List.replicate 4 Second :=
  have h : AlwaysFails failingProbe () := fun _ => rfl
  ⟨h, blockAndRetry_blocks_forever (fun _ => "1s") Second failingProbe () h 4⟩

/-- C6: for every probe that fails exactly `k` times and then succeeds,
`blockAndRetry` prints exactly `k` retry notices, each the text
"retrying in <d>...", one per failed call: round `i` is the failed call, then
the notice, then the sleep, and the successful call, which comes last, has no
notice. -/
theorem blockAndRetry_notices {σ ε : Type} (str : Duration → String) (d : Duration)
    (fn : Probe σ ε) (s : σ) (k fuel : Nat) (hk : FailsThenSucceeds fn s k) (hfuel : k < fuel) :
    ∃ t steps, blockAndRetry str d fn fuel s [] = .returned t steps ∧
      notices steps = List.replicate k ("retrying in " ++ str d ++ "...\n") ∧
      steps.length = 3 * k + 1 ∧
      (∀ i, i < k →
        steps[3 * i]? = some (.call false (didAt fn i s)) ∧
        steps[3 * i + 1]? = some (.printf ("retrying in " ++ str d ++ "...\n")) ∧
        steps[3 * i + 2]? = some (.sleep d)) ∧
      steps[3 * k]? = some (.call true (didAt fn k s)) := by
  refine ⟨_, _, blockAndRetry_run str d fn s k fuel hk hfuel, ?_, ?_, ?_, ?_⟩
  · simp [notices_append, notices_failedRounds, notices, retryNotice]
  · simp [length_failedRounds]
  · intro i hi
    have hat := failedRounds_at str d fn k i s hi
    have hlen := length_failedRounds str d fn k s
    rw [List.getElem?_append_left (by omega), List.getElem?_append_left (by omega),
      List.getElem?_append_left (by omega)]
    simpa [retryNotice] using hat
  · have hlen := length_failedRounds str d fn k s
    rw [List.getElem?_append_right (by omega)]
    simp [hlen]

theorem blockAndRetry_notices_witness :
    FailsThenSucceeds (pingProbe sampleWorld) 0 2 ∧
    ∃ t steps, blockAndRetry (fun _ => "1s") Second (pingProbe sampleWorld) 3 0 []
        = .returned t steps ∧
      notices steps = List.replicate 2 ("retrying in " ++ "1s" ++ "...\n") ∧
      steps.length = 3 * 2 + 1 ∧
      (∀ i, i < 2 →
        steps[3 * i]? = some (.call false (didAt (pingProbe sampleWorld) i 0)) ∧
        steps[3 * i + 1]? = some (.printf ("retrying in " ++ "1s" ++ "...\n")) ∧
        steps[3 * i + 2]? = some (.sleep Second)) ∧
      steps[3 * 2]? = some (.call true (didAt (pingProbe sampleWorld) 2 0)) :=
  have hk : FailsThenSucceeds (pingProbe sampleWorld) 0 2 := by
    unfold FailsThenSucceeds; decide
  ⟨hk, blockAndRetry_notices (fun _ => "1s") Second (pingProbe sampleWorld) 0 2 3 hk
    (by decide)⟩

/-! ## `main`: results -/

theorem retryEvents_not_listen (w : World) (n : Nat) (s : Server)
    (hfail : ∀ i, i < n → w.pingErr i ≠ none) : Event.listenAndServe s ∉ retryEvents w n 0 :=
  fun h => by simpa [Event.isRetry] using retryEvents_isRetry_zero w n hfail _ h

theorem shape_listen (w : World) (fuel : Nat) (s : Server) (r : Run) (hr : RunShape w fuel r)
    (h : Event.listenAndServe s ∈ r.log) :
    s = serverFor ⟨envDatastore w, envProvider w⟩ ∧
    ∃ k, (∀ i, i < k → w.pingErr i ≠ none) ∧
      ∃ tail, (∀ e, e ∈ tail → e.isFatal = true) ∧
        r.log = startEvents w ++ retryEvents w k 0 ++ readyEvents ++ launchEvents w ++ tail := by
  cases hr with
  | dotenvFailed err hload => simp at h
  | noDb hload hdb => simp at h
  | datastoreFailed err hload hdb hds => simp [startEvents] at h
  | waiting hload hdb hds hfail =>
    simp [startEvents] at h
    exact absurd h (retryEvents_not_listen w fuel s hfail)
  | noKey k hload hdb hds hfail hok hk hkey =>
    simp [startEvents, readyEvents] at h
    exact absurd h (retryEvents_not_listen w k s hfail)
  | serving k hload hdb hds hfail hok hk hkey hserve =>
    simp [startEvents, readyEvents, launchEvents] at h
    rcases h with h | h
    · exact absurd h (retryEvents_not_listen w k s hfail)
    · exact ⟨h, k, hfail, [], by simp, by simp⟩
  | serveFailed k err hload hdb hds hfail hok hk hkey hserve =>
    simp [startEvents, readyEvents, launchEvents] at h
    rcases h with h | h
    · exact absurd h (retryEvents_not_listen w k s hfail)
    · exact ⟨h, k, hfail, [.logFatal err], by simp [Event.isFatal], rfl⟩

/-- C5: in every run of `main` that reaches `ListenAndServe`, the log splits
at a successful ping: before it nothing of the router or the server has
happened, after it no ping is made, and the router, its middleware, the mount
and the launch of the server all come after it. -/
theorem main_serves_only_after_ready (w : World) (fuel : Nat) (s : Server)
    (h : Event.listenAndServe s ∈ (main w fuel).log) :
    ∃ pre post, (main w fuel).log = pre ++ Event.ping none :: post ∧
      (∀ e, e ∈ pre → e.isRouting = false) ∧
      (∀ e, e ∈ post → e.isPing = false) ∧
      Event.newRouter ∈ post ∧ Event.use fourStages ∈ post ∧
      (∃ sub, Event.mount "/api" sub ∈ post) ∧
      Event.listenAndServe s ∈ post := by
  obtain ⟨hs, k, hfail, tail, htail, hlog⟩ := shape_listen w fuel s _ (main_shape w fuel) h
  refine ⟨startEvents w ++ retryEvents w k 0,
    [.newRouter, .use fourStages] ++ launchEvents w ++ tail, ?_, ?_, ?_, ?_, ?_, ?_, ?_⟩
  · rw [hlog]; simp [readyEvents]
  · intro e he
    rcases List.mem_append.1 he with he | he
    · simp [startEvents] at he
      rcases he with rfl | rfl <;> rfl
    · exact isRetry_not_routing e (retryEvents_isRetry_zero w k hfail e he)
  · intro e he
    simp only [List.mem_append] at he
    rcases he with (he | he) | he
    · simp at he
      rcases he with rfl | rfl <;> rfl
    · simp [launchEvents] at he
      rcases he with rfl | rfl | rfl | rfl <;> rfl
    · have := htail e he
      cases e <;> simp_all [Event.isFatal, Event.isPing]
  · simp
  · simp
  · exact ⟨⟨envDatastore w, envProvider w⟩, by simp [launchEvents]⟩
  · rw [hs]; simp [launchEvents]

theorem main_serves_only_after_ready_witness :
    Event.listenAndServe (serverFor ⟨envDatastore sampleWorld, envProvider sampleWorld⟩)
      ∈ (main sampleWorld 3).log ∧
    ∃ pre post, (main sampleWorld 3).log = pre ++ Event.ping none :: post ∧
      (∀ e, e ∈ pre → e.isRouting = false) ∧
      (∀ e, e ∈ post → e.isPing = false) ∧
      Event.newRouter ∈ post ∧ Event.use fourStages ∈ post ∧
      (∃ sub, Event.mount "/api" sub ∈ post) ∧
      Event.listenAndServe (serverFor ⟨envDatastore sampleWorld, envProvider sampleWorld⟩)
        ∈ post :=
  have h : Event.listenAndServe (serverFor ⟨envDatastore sampleWorld, envProvider sampleWorld⟩)
      ∈ (main sampleWorld 3).log := by decide
  ⟨h, main_serves_only_after_ready sampleWorld 3 _ h⟩

/-- C10: whatever the environment, a server that `main` launches has read and
write timeout 10 seconds (10000000000 ns), at most 1 MiB (1048576 bytes) of
header, listen address ":8080", and as handler the main router: the four
middleware and the API router mounted under "/api". -/
theorem main_server_settings (w : World) (fuel : Nat) (s : Server)
    (h : Event.listenAndServe s ∈ (main w fuel).log) :
    s.ReadTimeout = 10 * Second ∧ s.ReadTimeout = 10000000000 ∧
    s.WriteTimeout = 10 * Second ∧ s.WriteTimeout = 10000000000 ∧
    s.MaxHeaderBytes = 1 <<< 20 ∧ s.MaxHeaderBytes = 1048576 ∧
    s.Addr = ":8080" ∧
    s.Handler = (NewRouter.Use [.RequestID, .RealIP, .LoggerRequest, .StripSlashes]).Mount "/api"
      ⟨envDatastore w, envProvider w⟩ := by
  obtain ⟨hs, -⟩ := shape_listen w fuel s _ (main_shape w fuel) h
  subst hs
  simp [serverFor, Second, NewRouter, Router.Use, Router.Mount, fourStages]

theorem main_server_settings_witness :
    Event.listenAndServe (serverFor ⟨envDatastore sampleWorld, envProvider sampleWorld⟩)
      ∈ (main sampleWorld 3).log ∧
    (serverFor ⟨envDatastore sampleWorld, envProvider sampleWorld⟩).ReadTimeout = 10000000000 ∧
    (serverFor ⟨envDatastore sampleWorld, envProvider sampleWorld⟩).WriteTimeout = 10000000000 ∧
    (serverFor ⟨envDatastore sampleWorld, envProvider sampleWorld⟩).MaxHeaderBytes = 1048576 ∧
    (serverFor ⟨envDatastore sampleWorld, envProvider sampleWorld⟩).Addr = ":8080" :=
  have h : Event.listenAndServe (serverFor ⟨envDatastore sampleWorld, envProvider sampleWorld⟩)
      ∈ (main sampleWorld 3).log := by decide
  have hs := main_server_settings sampleWorld 3 _ h
  ⟨h, hs.2.1, hs.2.2.2.1, hs.2.2.2.2.2.1, hs.2.2.2.2.2.2.1⟩

theorem shape_missing_db (w : World) (fuel : Nat) (r : Run) (hr : RunShape w fuel r)
    (h : Getenv w "PARROT_DB_NAME" = "" ∨ Getenv w "PARROT_DB_URL" = "") :
    r.outcome = .exited ∧ ∃ msg, r.log = [.dotenvLoad, .logFatal msg] := by
  cases hr with
  | dotenvFailed err hload => exact ⟨rfl, err, rfl⟩
  | noDb hload hdb => exact ⟨rfl, _, rfl⟩
  | datastoreFailed err hload hdb hds => exact absurd h hdb
  | waiting hload hdb hds hfail => exact absurd h hdb
  | noKey k hload hdb hds hfail hok hk hkey => exact absurd h hdb
  | serving k hload hdb hds hfail hok hk hkey hserve => exact absurd h hdb
  | serveFailed k err hload hdb hds hfail hok hk hkey hserve => exact absurd h hdb

theorem shape_missing_key (w : World) (fuel : Nat) (r : Run) (hr : RunShape w fuel r)
    (h : Getenv w "PARROT_API_SIGNING_KEY" = "") :
    r.outcome ≠ .serving ∧ ∀ e, e ∈ r.log → e.isListen = false := by
  cases hr with
  | dotenvFailed err hload => simp [Event.isListen]
  | noDb hload hdb => simp [Event.isListen]
  | datastoreFailed err hload hdb hds => simp [startEvents, Event.isListen]
  | waiting hload hdb hds hfail =>
    refine ⟨by simp, fun e he => ?_⟩
    rcases List.mem_append.1 he with he | he
    · simp [startEvents] at he
      rcases he with rfl | rfl <;> rfl
    · have := retryEvents_isRetry_zero w fuel hfail e he
      cases e <;> simp_all [Event.isRetry, Event.isListen]
  | noKey k hload hdb hds hfail hok hk hkey =>
    refine ⟨by simp, fun e he => ?_⟩
    simp only [List.mem_append] at he
    rcases he with ((he | he) | he) | he
    · simp [startEvents] at he
      rcases he with rfl | rfl <;> rfl
    · have := retryEvents_isRetry_zero w k hfail e he
      cases e <;> simp_all [Event.isRetry, Event.isListen]
    · simp [readyEvents] at he
      rcases he with rfl | rfl | rfl <;> rfl
    · simp at he
      subst he; rfl
  | serving k hload hdb hds hfail hok hk hkey hserve => exact absurd h hkey
  | serveFailed k err hload hdb hds hfail hok hk hkey hserve => exact absurd h hkey

/-- C3 as stated fails: with the signing key empty and everything else in
place, `main` constructs the datastore and pings it once before it exits on
the missing key. -/
theorem main_checks_key_after_gate :
    Getenv noKeyWorld "PARROT_API_SIGNING_KEY" = "" ∧
    Getenv noKeyWorld "PARROT_DB_NAME" ≠ "" ∧ Getenv noKeyWorld "PARROT_DB_URL" ≠ "" ∧
    Getenv noKeyWorld "PARROT_DOMAIN" ≠ "" ∧
    main noKeyWorld 1 = ⟨.exited, [.dotenvLoad, .newDatastore "parrot" "postgres://db/parrot",
      .ping none, .newRouter, .use fourStages, .logFatal "no api key set in env"]⟩ ∧
    (main noKeyWorld 1).log.countP Event.isNewDatastore = 1 ∧
    (main noKeyWorld 1).log.countP Event.isPing = 1 ∧
    (main noKeyWorld 1).log.countP Event.isListen = 0 := by
  decide

theorem retryEvents_count_ping (w : World) :
    ∀ (n first : Nat), (∀ i, i < n → w.pingErr (first + i) ≠ none) →
      (retryEvents w n first).countP Event.isPing = n := by
  intro n
  induction n with
  | zero => intro first _; simp [retryEvents, failedRounds, stepsEvents]
  | succ n ih =>
    intro first h
    have h0 : w.pingErr first ≠ none := by simpa using h 0 (Nat.succ_pos n)
    have hrest : ∀ i, i < n → w.pingErr (first + 1 + i) ≠ none := fun i hi => by
      have := h (i + 1) (Nat.succ_lt_succ hi)
      rwa [show first + (i + 1) = first + 1 + i by omega] at this
    obtain ⟨err, herr⟩ : ∃ err, w.pingErr first = some err := by
      cases hp : w.pingErr first with
      | none => exact absurd hp h0
      | some err => exact ⟨err, rfl⟩
    rw [retryEvents_succ]
    simp [pingProbe, herr, List.countP_append, List.countP_cons, Event.isPing,
      ih (first + 1) hrest]

theorem retryEvents_count_newDatastore (w : World) (n : Nat)
    (hfail : ∀ i, i < n → w.pingErr i ≠ none) :
    (retryEvents w n 0).countP Event.isNewDatastore = 0 := by
  rw [List.countP_eq_zero]
  intro e he
  have := retryEvents_isRetry_zero w n hfail e he
  cases e <;> simp_all [Event.isRetry, Event.isNewDatastore]

theorem retryEvents_count_listen (w : World) (n : Nat)
    (hfail : ∀ i, i < n → w.pingErr i ≠ none) :
    (retryEvents w n 0).countP Event.isListen = 0 := by
  rw [List.countP_eq_zero]
  intro e he
  have := retryEvents_isRetry_zero w n hfail e he
  cases e <;> simp_all [Event.isRetry, Event.isListen]

/-- The run of `main` when the signing key is missing and nothing else is. -/
theorem main_noKey_run (w : World) (k fuel : Nat) (hload : w.dotenvErr = none)
    (hds : w.newDatastoreErr = none) (hfail : ∀ i, i < k → w.pingErr i ≠ none)
    (hok : w.pingErr k = none) (hfuel : k < fuel)
    (hname : Getenv w "PARROT_DB_NAME" ≠ "") (hurl : Getenv w "PARROT_DB_URL" ≠ "")
    (hkey : Getenv w "PARROT_API_SIGNING_KEY" = "") :
    main w fuel = ⟨.exited, startEvents w ++ retryEvents w k 0 ++ readyEvents
      ++ [.logFatal "no api key set in env"]⟩ := by
  have hshape := main_shape w fuel
  have huniq : ∀ j, (∀ i, i < j → w.pingErr i ≠ none) → w.pingErr j = none → j = k := by
    intro j hj hjok
    rcases Nat.lt_trichotomy j k with hlt | heq | hgt
    · exact absurd hjok (hfail j hlt)
    · exact heq
    · exact absurd hok (hj k hgt)
  generalize main w fuel = r at hshape
  cases hshape with
  | dotenvFailed err hload2 => rw [hload] at hload2; cases hload2
  | noDb hload2 hdb => rcases hdb with h | h; exact absurd h hname; exact absurd h hurl
  | datastoreFailed err hload2 hdb hds2 => rw [hds] at hds2; cases hds2
  | waiting hload2 hdb hds2 hfail2 => exact absurd hok (hfail2 k hfuel)
  | noKey j hload2 hdb hds2 hfail2 hok2 hj hkey2 =>
    obtain rfl := huniq j hfail2 hok2
    rfl
  | serving j hload2 hdb hds2 hfail2 hok2 hj hkey2 hserve => exact absurd hkey hkey2
  | serveFailed j err hload2 hdb hds2 hfail2 hok2 hj hkey2 hserve => exact absurd hkey hkey2

theorem shape_missing_key_outcome (w : World) (fuel : Nat) (r : Run) (hr : RunShape w fuel r)
    (h : Getenv w "PARROT_API_SIGNING_KEY" = "") :
    r.outcome = .exited ∨ (r.outcome = .waiting ∧ ∀ i, i < fuel → w.pingErr i ≠ none) := by
  cases hr with
  | dotenvFailed err hload => exact .inl rfl
  | noDb hload hdb => exact .inl rfl
  | datastoreFailed err hload hdb hds => exact .inl rfl
  | waiting hload hdb hds hfail => exact .inr ⟨rfl, hfail⟩
  | noKey k hload hdb hds hfail hok hk hkey => exact .inl rfl
  | serving k hload hdb hds hfail hok hk hkey hserve => exact absurd h hkey
  | serveFailed k err hload hdb hds hfail hok hk hkey hserve => exact absurd h hkey

/-- C3, amended: when PARROT_DB_NAME or PARROT_DB_URL is missing or empty,
`main` exits having done nothing but load the environment file and log the
fatal message: no datastore is constructed, no ping is made, no server is
launched. When PARROT_API_SIGNING_KEY is missing or empty, `main` never
launches the server, and it has exited unless it is still held in the gate by
failing pings; but the key is checked only after the datastore is constructed
and the gate has returned: with the datastore values there, the environment
file loaded, the datastore constructed and ping number `k` the first to
succeed, `main` makes one `NewDatastore` call and `k + 1` pings, sets up the
main router and then exits on "no api key set in env". -/
theorem main_stops_on_missing_value (w : World) (fuel : Nat)
    (h : Getenv w "PARROT_DB_NAME" = "" ∨ Getenv w "PARROT_DB_URL" = "" ∨
      Getenv w "PARROT_API_SIGNING_KEY" = "") :
    (main w fuel).outcome ≠ .serving ∧
    (main w fuel).log.countP Event.isListen = 0 ∧
    (Getenv w "PARROT_DB_NAME" = "" ∨ Getenv w "PARROT_DB_URL" = "" →
      (main w fuel).outcome = .exited ∧
      (∃ msg, (main w fuel).log = [.dotenvLoad, .logFatal msg]) ∧
      (main w fuel).log.countP Event.isNewDatastore = 0 ∧
      (main w fuel).log.countP Event.isPing = 0) ∧
    (Getenv w "PARROT_API_SIGNING_KEY" = "" →
      ((main w fuel).outcome = .exited ∨
        ((main w fuel).outcome = .waiting ∧ ∀ i, i < fuel → w.pingErr i ≠ none)) ∧
      ∀ k, Getenv w "PARROT_DB_NAME" ≠ "" → Getenv w "PARROT_DB_URL" ≠ "" →
        w.dotenvErr = none → w.newDatastoreErr = none →
        (∀ i, i < k → w.pingErr i ≠ none) → w.pingErr k = none → k < fuel →
        main w fuel = ⟨.exited,
          [.dotenvLoad, .newDatastore (Getenv w "PARROT_DB_NAME") (Getenv w "PARROT_DB_URL")]
            ++ retryEvents w k 0
            ++ [.ping none, .newRouter,
                .use [.RequestID, .RealIP, .LoggerRequest, .StripSlashes],
                .logFatal "no api key set in env"]⟩ ∧
        (main w fuel).log.countP Event.isNewDatastore = 1 ∧
        (main w fuel).log.countP Event.isPing = k + 1) := by
  have hshape := main_shape w fuel
  have hdbcase : Getenv w "PARROT_DB_NAME" = "" ∨ Getenv w "PARROT_DB_URL" = "" →
      (main w fuel).outcome = .exited ∧
      (∃ msg, (main w fuel).log = [.dotenvLoad, .logFatal msg]) ∧
      (main w fuel).log.countP Event.isNewDatastore = 0 ∧
      (main w fuel).log.countP Event.isPing = 0 ∧
      (main w fuel).log.countP Event.isListen = 0 := by
    intro hdb
    obtain ⟨hout, msg, hlog⟩ := shape_missing_db w fuel _ hshape hdb
    refine ⟨hout, ⟨msg, hlog⟩, ?_, ?_, ?_⟩ <;> rw [hlog] <;> rfl
  have hdb_or_key : (Getenv w "PARROT_DB_NAME" = "" ∨ Getenv w "PARROT_DB_URL" = "") ∨
      Getenv w "PARROT_API_SIGNING_KEY" = "" := by
    rcases h with h | h | h
    · exact .inl (.inl h)
    · exact .inl (.inr h)
    · exact .inr h
  refine ⟨?_, ?_, fun hdb => ⟨(hdbcase hdb).1, (hdbcase hdb).2.1, (hdbcase hdb).2.2.1,
    (hdbcase hdb).2.2.2.1⟩, fun hkey => ⟨shape_missing_key_outcome w fuel _ hshape hkey, ?_⟩⟩
  · rcases hdb_or_key with hdb | hkey
    · rw [(hdbcase hdb).1]; decide
    · exact (shape_missing_key w fuel _ hshape hkey).1
  · rcases hdb_or_key with hdb | hkey
    · exact (hdbcase hdb).2.2.2.2
    · rw [List.countP_eq_zero]
      intro e he
      simpa using (shape_missing_key w fuel _ hshape hkey).2 e he
  · intro k hname hurl hload hds hfail hok hfuel
    have hrun := main_noKey_run w k fuel hload hds hfail hok hfuel hname hurl hkey
    have hping := retryEvents_count_ping w k 0 (by simpa using hfail)
    have hnds := retryEvents_count_newDatastore w k hfail
    refine ⟨?_, ?_, ?_⟩
    · rw [hrun]; simp [startEvents, readyEvents, fourStages]
    · rw [hrun]
      simp [startEvents, readyEvents, List.countP_append, List.countP_cons, hnds,
        Event.isNewDatastore]
    · rw [hrun]
      simp [startEvents, readyEvents, List.countP_append, List.countP_cons, hping,
        Event.isPing]

theorem main_stops_on_missing_value_witness :
    ((Getenv noDbNameWorld "PARROT_DB_NAME" = "" ∨ Getenv noDbNameWorld "PARROT_DB_URL" = "" ∨
        Getenv noDbNameWorld "PARROT_API_SIGNING_KEY" = "") ∧
      (main noDbNameWorld 3).outcome = .exited ∧
      (∃ msg, (main noDbNameWorld 3).log = [.dotenvLoad, .logFatal msg]) ∧
      (main noDbNameWorld 3).log.countP Event.isNewDatastore = 0 ∧
      (main noDbNameWorld 3).log.countP Event.isPing = 0) ∧
    ((Getenv noKeyWorld "PARROT_DB_NAME" = "" ∨ Getenv noKeyWorld "PARROT_DB_URL" = "" ∨
        Getenv noKeyWorld "PARROT_API_SIGNING_KEY" = "") ∧
      (main noKeyWorld 3).outcome ≠ .serving ∧
      (main noKeyWorld 3).log.countP Event.isListen = 0 ∧
      main noKeyWorld 3 = ⟨.exited,
        [.dotenvLoad, .newDatastore (Getenv noKeyWorld "PARROT_DB_NAME")
            (Getenv noKeyWorld "PARROT_DB_URL")]
          ++ retryEvents noKeyWorld 0 0
          ++ [.ping none, .newRouter,
              .use [.RequestID, .RealIP, .LoggerRequest, .StripSlashes],
              .logFatal "no api key set in env"]⟩ ∧
      (main noKeyWorld 3).log.countP Event.isNewDatastore = 1 ∧
      (main noKeyWorld 3).log.countP Event.isPing = 0 + 1) :=
  have hdb : Getenv noDbNameWorld "PARROT_DB_NAME" = "" ∨
      Getenv noDbNameWorld "PARROT_DB_URL" = "" := by decide
  have h1 : Getenv noDbNameWorld "PARROT_DB_NAME" = "" ∨ Getenv noDbNameWorld "PARROT_DB_URL" = ""
      ∨ Getenv noDbNameWorld "PARROT_API_SIGNING_KEY" = "" := by decide
  have hkey : Getenv noKeyWorld "PARROT_API_SIGNING_KEY" = "" := by decide
  have h2 : Getenv noKeyWorld "PARROT_DB_NAME" = "" ∨ Getenv noKeyWorld "PARROT_DB_URL" = ""
      ∨ Getenv noKeyWorld "PARROT_API_SIGNING_KEY" = "" := by decide
  have t1 := main_stops_on_missing_value noDbNameWorld 3 h1
  have t2 := main_stops_on_missing_value noKeyWorld 3 h2
  ⟨⟨h1, t1.2.2.1 hdb⟩,
   ⟨h2, t2.1, t2.2.1,
    (t2.2.2.2 hkey).2 0 (by decide) (by decide) rfl rfl (by decide) rfl (by decide)⟩⟩

/-- C2 fails on the code for PARROT_DOMAIN: with the domain empty, or not set
at all, and everything else in place, `main` logs no fatal error; it builds
the auth provider with the empty name and launches the server. -/
theorem main_accepts_empty_domain :
    Getenv noDomainWorld "PARROT_DOMAIN" = "" ∧
    Getenv unsetDomainWorld "PARROT_DOMAIN" = "" ∧
    main noDomainWorld 1 = ⟨.serving, [.dotenvLoad,
      .newDatastore "parrot" "postgres://db/parrot", .ping none, .newRouter, .use fourStages,
      .apiNewRouter ⟨"parrot", "postgres://db/parrot"⟩ ⟨"", bytesOf "secret"⟩,
      .mount "/api" ⟨⟨"parrot", "postgres://db/parrot"⟩, ⟨"", bytesOf "secret"⟩⟩,
      .logInfo "Listening on :8080",
      .listenAndServe (serverFor ⟨⟨"parrot", "postgres://db/parrot"⟩, ⟨"", bytesOf "secret"⟩⟩)]⟩ ∧
    main unsetDomainWorld 1 = main noDomainWorld 1 ∧
    (main noDomainWorld 1).log.countP Event.isFatal = 0 := by
  decide

theorem getenv_of_set (w : World) (key value : String) (h : w.environ key = some value) :
    Getenv w key = value := by
  simp [Getenv, h]

/-- The run of `main` when nothing fails and the datastore and signing key
values are there. -/
theorem main_ready_run (w : World) (k fuel : Nat) (hload : w.dotenvErr = none)
    (hds : w.newDatastoreErr = none) (hfail : ∀ i, i < k → w.pingErr i ≠ none)
    (hok : w.pingErr k = none) (hfuel : k < fuel)
    (hname : Getenv w "PARROT_DB_NAME" ≠ "") (hurl : Getenv w "PARROT_DB_URL" ≠ "")
    (hkey : Getenv w "PARROT_API_SIGNING_KEY" ≠ "") :
    main w fuel =
      ⟨match w.serveErr with
        | none => .serving
        | some _ => .exited,
       startEvents w ++ retryEvents w k 0 ++ readyEvents ++ launchEvents w ++
        match w.serveErr with
        | none => []
        | some err => [.logFatal err]⟩ := by
  have hshape := main_shape w fuel
  have huniq : ∀ j, (∀ i, i < j → w.pingErr i ≠ none) → w.pingErr j = none → j = k := by
    intro j hj hjok
    rcases Nat.lt_trichotomy j k with hlt | heq | hgt
    · exact absurd hjok (hfail j hlt)
    · exact heq
    · exact absurd hok (hj k hgt)
  generalize main w fuel = r at hshape
  cases hshape with
  | dotenvFailed err hload2 => rw [hload] at hload2; cases hload2
  | noDb hload2 hdb => rcases hdb with h | h; exact absurd h hname; exact absurd h hurl
  | datastoreFailed err hload2 hdb hds2 => rw [hds] at hds2; cases hds2
  | waiting hload2 hdb hds2 hfail2 => exact absurd hok (hfail2 k hfuel)
  | noKey j hload2 hdb hds2 hfail2 hok2 hj hkey2 => exact absurd hkey2 hkey
  | serving j hload2 hdb hds2 hfail2 hok2 hj hkey2 hserve =>
    obtain rfl := huniq j hfail2 hok2
    simp [hserve]
  | serveFailed j err hload2 hdb hds2 hfail2 hok2 hj hkey2 hserve =>
    obtain rfl := huniq j hfail2 hok2
    simp [hserve]

/-- The run of `main` while the datastore does not answer. -/
theorem main_stuck_run (w : World) (fuel : Nat) (hload : w.dotenvErr = none)
    (hds : w.newDatastoreErr = none) (hfail : ∀ i, i < fuel → w.pingErr i ≠ none)
    (hname : Getenv w "PARROT_DB_NAME" ≠ "") (hurl : Getenv w "PARROT_DB_URL" ≠ "") :
    main w fuel = ⟨.waiting, startEvents w ++ retryEvents w fuel 0⟩ := by
  have hshape := main_shape w fuel
  generalize main w fuel = r at hshape
  cases hshape with
  | dotenvFailed err hload2 => rw [hload] at hload2; cases hload2
  | noDb hload2 hdb => rcases hdb with h | h; exact absurd h hname; exact absurd h hurl
  | datastoreFailed err hload2 hdb hds2 => rw [hds] at hds2; cases hds2
  | waiting hload2 hdb hds2 hfail2 => rfl
  | noKey j hload2 hdb hds2 hfail2 hok2 hj hkey2 => exact absurd hok2 (hfail j hj)
  | serving j hload2 hdb hds2 hfail2 hok2 hj hkey2 hserve => exact absurd hok2 (hfail j hj)
  | serveFailed j err hload2 hdb hds2 hfail2 hok2 hj hkey2 hserve =>
    exact absurd hok2 (hfail j hj)

/-- C7 as stated fails: with all four values present and non-empty, `main`
exits on the fatal error of `godotenv.Load` before it configures anything, or
on the fatal error of `datastore.NewDatastore` before the auth provider is
built, or stays in the gate for ever when the datastore never answers; in
none of these runs is "Listening on :8080" logged. -/
theorem main_needs_more_than_the_values :
    allSet loadFailsWorld = true ∧
    main loadFailsWorld 3
      = ⟨.exited, [.dotenvLoad, .logFatal "open .env: no such file or directory"]⟩ ∧
    allSet datastoreFailsWorld = true ∧
    main datastoreFailsWorld 3
      = ⟨.exited, [.dotenvLoad, .newDatastore "parrot" "postgres://db/parrot",
          .logFatal "cannot open datastore"]⟩ ∧
    allSet silentWorld = true ∧
    ∀ fuel, (main silentWorld fuel).outcome = .waiting ∧
      Event.logInfo "Listening on :8080" ∉ (main silentWorld fuel).log := by
  refine ⟨by decide, by decide, by decide, by decide, by decide, fun fuel => ?_⟩
  have hfail : ∀ i, i < fuel → silentWorld.pingErr i ≠ none := fun i _ => by
    simp [silentWorld]
  rw [main_stuck_run silentWorld fuel rfl rfl hfail (by decide) (by decide)]
  refine ⟨rfl, fun hmem => ?_⟩
  rcases List.mem_append.1 hmem with hmem | hmem
  · simp [startEvents] at hmem
  · have := retryEvents_isRetry_zero silentWorld fuel hfail _ hmem
    simp [Event.isRetry] at this

/-- C7, amended: when the four values are set and non-empty, loading the
environment file and constructing the datastore succeed, and ping number `k`
is the first the datastore answers, `main` constructs the datastore from the given name
and URL, builds the API router with an auth provider whose name is the given
domain and whose signing key is the bytes of the given key, and then logs
"Listening on :8080" and launches the server; no fatal error comes before. -/
theorem main_configures_from_environment (w : World) (k fuel : Nat)
    (name url key domain : String)
    (hname : w.environ "PARROT_DB_NAME" = some name) (hname0 : name ≠ "")
    (hurl : w.environ "PARROT_DB_URL" = some url) (hurl0 : url ≠ "")
    (hkey : w.environ "PARROT_API_SIGNING_KEY" = some key) (hkey0 : key ≠ "")
    (hdomain : w.environ "PARROT_DOMAIN" = some domain) (_hdomain0 : domain ≠ "")
    (hload : w.dotenvErr = none) (hds : w.newDatastoreErr = none)
    (hfail : ∀ i, i < k → w.pingErr i ≠ none) (hok : w.pingErr k = none) (hfuel : k < fuel) :
    (main w fuel).log =
      [.dotenvLoad, .newDatastore name url] ++ retryEvents w k 0 ++
      [.ping none, .newRouter, .use [.RequestID, .RealIP, .LoggerRequest, .StripSlashes],
       .apiNewRouter ⟨name, url⟩ ⟨domain, bytesOf key⟩,
       .mount "/api" ⟨⟨name, url⟩, ⟨domain, bytesOf key⟩⟩,
       .logInfo "Listening on :8080",
       .listenAndServe (serverFor ⟨⟨name, url⟩, ⟨domain, bytesOf key⟩⟩)] ++
      (match w.serveErr with
        | none => []
        | some err => [.logFatal err]) ∧
    (∀ e, e ∈ retryEvents w k 0 → e.isFatal = false) ∧
    (bytesOf key).content = key := by
  have h1 := getenv_of_set w _ _ hname
  have h2 := getenv_of_set w _ _ hurl
  have h3 := getenv_of_set w _ _ hkey
  have h4 := getenv_of_set w _ _ hdomain
  have hrun := main_ready_run w k fuel hload hds hfail hok hfuel (by rw [h1]; exact hname0)
    (by rw [h2]; exact hurl0) (by rw [h3]; exact hkey0)
  refine ⟨?_, fun e he => isRetry_not_fatal e (retryEvents_isRetry_zero w k hfail e he), rfl⟩
  rw [hrun]
  simp [startEvents, readyEvents, launchEvents, envDatastore, envProvider, fourStages,
    h1, h2, h3, h4]

theorem main_configures_from_environment_witness :
    (main sampleWorld 3).log =
      [.dotenvLoad, .newDatastore "parrot" "postgres://db/parrot"] ++ retryEvents sampleWorld 2 0 ++
      [.ping none, .newRouter, .use [.RequestID, .RealIP, .LoggerRequest, .StripSlashes],
       .apiNewRouter ⟨"parrot", "postgres://db/parrot"⟩ ⟨"parrot.example", bytesOf "secret"⟩,
       .mount "/api" ⟨⟨"parrot", "postgres://db/parrot"⟩, ⟨"parrot.example", bytesOf "secret"⟩⟩,
       .logInfo "Listening on :8080",
       .listenAndServe (serverFor
         ⟨⟨"parrot", "postgres://db/parrot"⟩, ⟨"parrot.example", bytesOf "secret"⟩⟩)] ++
      (match sampleWorld.serveErr with
        | none => []
        | some err => [.logFatal err]) ∧
    (∀ e, e ∈ retryEvents sampleWorld 2 0 → e.isFatal = false) ∧
    (bytesOf "secret").content = "secret" :=
  main_configures_from_environment sampleWorld 2 3 "parrot" "postgres://db/parrot" "secret"
    "parrot.example" (by decide) (by decide) (by decide) (by decide) (by decide) (by decide)
    (by decide) (by decide) rfl rfl (by decide) (by decide) (by decide)

theorem isRetry_not_use (e : Event) (h : e.isRetry = true) : e.isUse = false := by
  cases e <;> simp_all [Event.isRetry, Event.isUse]

/-- A run in which the router shows up is past the gate: the log is the start,
the failed rounds, the successful ping with the router and its middleware, and
then either the fatal message for the key or the launch. -/
theorem shape_routing (w : World) (fuel : Nat) (r : Run) (hr : RunShape w fuel r) (e : Event)
    (he : e ∈ r.log) (hrouting : e.isRouting = true) :
    ∃ k, (∀ i, i < k → w.pingErr i ≠ none) ∧
      ∃ tail, r.log = startEvents w ++ retryEvents w k 0 ++ readyEvents ++ tail ∧
        (tail = [.logFatal "no api key set in env"] ∨
          ∃ t, (∀ x, x ∈ t → x.isFatal = true) ∧ tail = launchEvents w ++ t) := by
  cases hr with
  | dotenvFailed err hload =>
    simp at he; rcases he with rfl | rfl <;> simp [Event.isRouting] at hrouting
  | noDb hload hdb =>
    simp at he; rcases he with rfl | rfl <;> simp [Event.isRouting] at hrouting
  | datastoreFailed err hload hdb hds =>
    simp [startEvents] at he
    rcases he with rfl | rfl | rfl <;> simp [Event.isRouting] at hrouting
  | waiting hload hdb hds hfail =>
    simp [startEvents] at he
    rcases he with rfl | rfl | he
    · simp [Event.isRouting] at hrouting
    · simp [Event.isRouting] at hrouting
    · have := isRetry_not_routing e (retryEvents_isRetry_zero w fuel hfail e he)
      rw [this] at hrouting; cases hrouting
  | noKey k hload hdb hds hfail hok hk hkey => exact ⟨k, hfail, _, rfl, .inl rfl⟩
  | serving k hload hdb hds hfail hok hk hkey hserve =>
    exact ⟨k, hfail, launchEvents w, rfl, .inr ⟨[], by simp, by simp⟩⟩
  | serveFailed k err hload hdb hds hfail hok hk hkey hserve =>
    exact ⟨k, hfail, launchEvents w ++ [.logFatal err], by simp,
      .inr ⟨[.logFatal err], by simp [Event.isFatal], rfl⟩⟩

theorem isRetry_not_mount (e : Event) (h : e.isRetry = true) : e.isMount = false := by
  cases e <;> simp_all [Event.isRetry, Event.isMount]

/-- What a request passes on the router of a launched server. -/
theorem serverFor_serveHTTP (h : ApiRouter) (selects : String → String → Bool) (path : String) :
    (serverFor h).Handler.ServeHTTP selects path =
      [.middleware .RequestID, .middleware .RealIP, .middleware .LoggerRequest,
        .middleware .StripSlashes] ++ (if selects "/api" path then [.api h] else [.notFound]) := by
  by_cases hsel : selects "/api" path = true
  · simp [Router.ServeHTTP, serverFor, fourStages, Middleware.wrap, Router.route, List.find?,
      hsel]
  · simp [Router.ServeHTTP, serverFor, fourStages, Middleware.wrap, Router.route, List.find?,
      hsel]

/-- C8: in every run of `main`, a call of `Use` on the main router registers
exactly RequestID, RealIP, logger.Request, StripSlashes, in this order, and
is the only such call; a mount is of the API router under "/api", is the only
one, and comes after that call; a launched server comes after both, and its
router has exactly these four middleware and this one mount, so that a request
it hands to the API router has passed these four stages, in this order, and
nothing else before. And the router is built this way: in a run in which
nothing fails, the key is set and a ping succeeds, the log has the `Use` call,
then the mount, then the launch. -/
theorem main_middleware_chain (w : World) (fuel : Nat) :
    (∀ mws, Event.use mws ∈ (main w fuel).log →
      mws = [.RequestID, .RealIP, .LoggerRequest, .StripSlashes] ∧
      (main w fuel).log.countP Event.isUse = 1) ∧
    (∀ pattern sub, Event.mount pattern sub ∈ (main w fuel).log →
      pattern = "/api" ∧ sub = ⟨envDatastore w, envProvider w⟩ ∧
      (main w fuel).log.countP Event.isMount = 1 ∧
      ∃ pre post, (main w fuel).log
          = pre ++ Event.use [.RequestID, .RealIP, .LoggerRequest, .StripSlashes] :: post ∧
        Event.mount pattern sub ∈ post ∧
        ∀ e, e ∈ pre → e.isMount = false) ∧
    (∀ s, Event.listenAndServe s ∈ (main w fuel).log →
      s.Handler.middlewares = [.RequestID, .RealIP, .LoggerRequest, .StripSlashes] ∧
      s.Handler.mounts = [("/api", ⟨envDatastore w, envProvider w⟩)] ∧
      (∃ pre mid post, (main w fuel).log
          = pre ++ Event.use [.RequestID, .RealIP, .LoggerRequest, .StripSlashes] :: mid
            ++ Event.mount "/api" ⟨envDatastore w, envProvider w⟩ :: post ∧
        Event.listenAndServe s ∈ post) ∧
      ∀ selects path sub, Stage.api sub ∈ s.Handler.ServeHTTP selects path →
        s.Handler.ServeHTTP selects path
          = [.middleware .RequestID, .middleware .RealIP, .middleware .LoggerRequest,
             .middleware .StripSlashes, .api ⟨envDatastore w, envProvider w⟩]) ∧
    (∀ k, Getenv w "PARROT_DB_NAME" ≠ "" → Getenv w "PARROT_DB_URL" ≠ "" →
      Getenv w "PARROT_API_SIGNING_KEY" ≠ "" → w.dotenvErr = none → w.newDatastoreErr = none →
      (∀ i, i < k → w.pingErr i ≠ none) → w.pingErr k = none → k < fuel →
      ∃ tail, (main w fuel).log =
        [.dotenvLoad, .newDatastore (Getenv w "PARROT_DB_NAME") (Getenv w "PARROT_DB_URL")]
          ++ retryEvents w k 0
          ++ [.ping none, .newRouter,
              .use [.RequestID, .RealIP, .LoggerRequest, .StripSlashes],
              .apiNewRouter (envDatastore w) (envProvider w),
              .mount "/api" ⟨envDatastore w, envProvider w⟩,
              .logInfo "Listening on :8080",
              .listenAndServe (serverFor ⟨envDatastore w, envProvider w⟩)]
          ++ tail) := by
  have hshape := main_shape w fuel
  refine ⟨?_, ?_, ?_, ?_⟩
  · intro mws hmem
    obtain ⟨k, hfail, tail, hlog, htail⟩ :=
      shape_routing w fuel _ hshape _ hmem (by rfl)
    have hretry : ∀ e, e ∈ retryEvents w k 0 → e.isUse = false := fun e he =>
      isRetry_not_use e (retryEvents_isRetry_zero w k hfail e he)
    have hcount : (retryEvents w k 0).countP Event.isUse = 0 := by
      rw [List.countP_eq_zero]; intro e he; simpa using hretry e he
    rw [hlog] at hmem ⊢
    rcases htail with rfl | ⟨t, ht, rfl⟩
    · constructor
      · simp [startEvents, readyEvents, fourStages] at hmem
        rcases hmem with hmem | hmem
        · have := hretry _ hmem; simp [Event.isUse] at this
        · exact hmem
      · simp [List.countP_append, hcount, startEvents, readyEvents, Event.isUse,
          List.countP_cons]
    · have htcount : t.countP Event.isUse = 0 := by
        rw [List.countP_eq_zero]; intro e he
        have := ht e he
        cases e <;> simp_all [Event.isFatal, Event.isUse]
      constructor
      · simp [startEvents, readyEvents, launchEvents, fourStages] at hmem
        rcases hmem with hmem | hmem | hmem
        · have := hretry _ hmem; simp [Event.isUse] at this
        · exact hmem
        · have := ht _ hmem; simp [Event.isFatal] at this
      · simp [List.countP_append, hcount, htcount, startEvents, readyEvents, launchEvents,
          Event.isUse, List.countP_cons]
  · intro pattern sub hmem
    obtain ⟨k, hfail, tail, hlog, htail⟩ :=
      shape_routing w fuel _ hshape _ hmem (by rfl)
    have hretry : ∀ e, e ∈ retryEvents w k 0 → e.isRetry = true :=
      retryEvents_isRetry_zero w k hfail
    have hcount : (retryEvents w k 0).countP Event.isMount = 0 := by
      rw [List.countP_eq_zero]; intro e he
      simpa using isRetry_not_mount e (hretry e he)
    rw [hlog] at hmem ⊢
    have hpre : ∀ e, e ∈ startEvents w ++ retryEvents w k 0 ++ [Event.ping none, .newRouter] →
        e.isMount = false := by
      intro e he
      simp only [List.mem_append] at he
      rcases he with (he | he) | he
      · simp [startEvents] at he
        rcases he with rfl | rfl <;> rfl
      · exact isRetry_not_mount e (hretry e he)
      · simp at he
        rcases he with rfl | rfl <;> rfl
    rcases htail with rfl | ⟨t, ht, rfl⟩
    · simp [startEvents, readyEvents] at hmem
      have := hretry _ hmem; simp [Event.isRetry] at this
    · have htcount : t.countP Event.isMount = 0 := by
        rw [List.countP_eq_zero]; intro e he
        have := ht e he
        cases e <;> simp_all [Event.isFatal, Event.isMount]
      have hin : Event.mount pattern sub ∈ launchEvents w := by
        simp [startEvents, readyEvents] at hmem
        rcases hmem with hmem | hmem | hmem
        · have := hretry _ hmem; simp [Event.isRetry] at this
        · exact hmem
        · have := ht _ hmem; simp [Event.isFatal] at this
      have hval : pattern = "/api" ∧ sub = ⟨envDatastore w, envProvider w⟩ := by
        simpa [launchEvents] using hin
      refine ⟨hval.1, hval.2, ?_,
        startEvents w ++ retryEvents w k 0 ++ [Event.ping none, .newRouter],
        launchEvents w ++ t, ?_, ?_, hpre⟩
      · simp [List.countP_append, hcount, htcount, startEvents, readyEvents, launchEvents,
          Event.isMount, List.countP_cons]
      · simp [readyEvents, fourStages]
      · exact List.mem_append_left _ hin
  · intro s hmem
    obtain ⟨hs, k, hfail, tail, htail, hlog⟩ := shape_listen w fuel s _ hshape hmem
    subst hs
    refine ⟨rfl, rfl, ⟨startEvents w ++ retryEvents w k 0 ++ [Event.ping none, .newRouter],
      [.apiNewRouter (envDatastore w) (envProvider w)],
      [.logInfo "Listening on :8080",
        .listenAndServe (serverFor ⟨envDatastore w, envProvider w⟩)] ++ tail, ?_, ?_⟩, ?_⟩
    · rw [hlog]; simp [readyEvents, launchEvents, fourStages]
    · simp
    · intro selects path sub hsub
      rw [serverFor_serveHTTP] at hsub ⊢
      by_cases hsel : selects "/api" path = true
      · simp [hsel]
      · simp [hsel] at hsub
  · intro k hname hurl hkey hload hds hfail hok hfuel
    have hrun := main_ready_run w k fuel hload hds hfail hok hfuel hname hurl hkey
    refine ⟨match w.serveErr with
      | none => []
      | some err => [.logFatal err], ?_⟩
    rw [hrun]
    simp [startEvents, readyEvents, launchEvents, fourStages]

theorem main_middleware_chain_witness :
    Event.use [.RequestID, .RealIP, .LoggerRequest, .StripSlashes] ∈ (main sampleWorld 3).log ∧
    (main sampleWorld 3).log.countP Event.isUse = 1 ∧
    Event.mount "/api" ⟨envDatastore sampleWorld, envProvider sampleWorld⟩
      ∈ (main sampleWorld 3).log ∧
    (main sampleWorld 3).log.countP Event.isMount = 1 ∧
    (∃ pre post, (main sampleWorld 3).log
        = pre ++ Event.use [.RequestID, .RealIP, .LoggerRequest, .StripSlashes] :: post ∧
      Event.mount "/api" ⟨envDatastore sampleWorld, envProvider sampleWorld⟩ ∈ post ∧
      ∀ e, e ∈ pre → e.isMount = false) ∧
    Event.listenAndServe (serverFor ⟨envDatastore sampleWorld, envProvider sampleWorld⟩)
      ∈ (main sampleWorld 3).log ∧
    Stage.api ⟨envDatastore sampleWorld, envProvider sampleWorld⟩
      ∈ (serverFor ⟨envDatastore sampleWorld, envProvider sampleWorld⟩).Handler.ServeHTTP
          underPattern "/api/projects" ∧
    (serverFor ⟨envDatastore sampleWorld, envProvider sampleWorld⟩).Handler.ServeHTTP
        underPattern "/api/projects"
      = [.middleware .RequestID, .middleware .RealIP, .middleware .LoggerRequest,
         .middleware .StripSlashes, .api ⟨envDatastore sampleWorld, envProvider sampleWorld⟩] ∧
    (∃ tail, (main sampleWorld 3).log =
      [.dotenvLoad, .newDatastore (Getenv sampleWorld "PARROT_DB_NAME")
          (Getenv sampleWorld "PARROT_DB_URL")]
        ++ retryEvents sampleWorld 2 0
        ++ [.ping none, .newRouter,
            .use [.RequestID, .RealIP, .LoggerRequest, .StripSlashes],
            .apiNewRouter (envDatastore sampleWorld) (envProvider sampleWorld),
            .mount "/api" ⟨envDatastore sampleWorld, envProvider sampleWorld⟩,
            .logInfo "Listening on :8080",
            .listenAndServe (serverFor ⟨envDatastore sampleWorld, envProvider sampleWorld⟩)]
        ++ tail) :=
  have huse : Event.use [.RequestID, .RealIP, .LoggerRequest, .StripSlashes]
      ∈ (main sampleWorld 3).log := by decide
  have hmount : Event.mount "/api" ⟨envDatastore sampleWorld, envProvider sampleWorld⟩
      ∈ (main sampleWorld 3).log := by decide
  have hlisten : Event.listenAndServe
      (serverFor ⟨envDatastore sampleWorld, envProvider sampleWorld⟩)
      ∈ (main sampleWorld 3).log := by decide
  have hserved : Stage.api ⟨envDatastore sampleWorld, envProvider sampleWorld⟩
      ∈ (serverFor ⟨envDatastore sampleWorld, envProvider sampleWorld⟩).Handler.ServeHTTP
          underPattern "/api/projects" := by decide
  have t := main_middleware_chain sampleWorld 3
  ⟨huse, (t.1 _ huse).2, hmount, (t.2.1 _ _ hmount).2.2.1, (t.2.1 _ _ hmount).2.2.2, hlisten,
    hserved, (t.2.2.1 _ hlisten).2.2.2 _ _ _ hserved,
    t.2.2.2 2 (by decide) (by decide) (by decide) rfl rfl (by decide) (by decide) (by decide)⟩

theorem shape_exit (w : World) (fuel : Nat) (r : Run) (hr : RunShape w fuel r)
    (h : r.outcome = .exited) : r.log.countP Event.isPing = 0 ∨ Event.ping none ∈ r.log := by
  cases hr with
  | dotenvFailed err hload => exact .inl rfl
  | noDb hload hdb => exact .inl rfl
  | datastoreFailed err hload hdb hds => exact .inl rfl
  | waiting hload hdb hds hfail => cases h
  | noKey k hload hdb hds hfail hok hk hkey => exact .inr (by simp [readyEvents])
  | serving k hload hdb hds hfail hok hk hkey hserve => cases h
  | serveFailed k err hload hdb hds hfail hok hk hkey hserve =>
    exact .inr (by simp [readyEvents])

/-- C9: a call of the probe in which `ds.Ping` returns an error logs exactly
one error entry, made of "failed to ping datastore.", a line break, "err: "
and the text of that error, logs nothing fatal, and returns false, on which
the gate prints its notice, sleeps and calls again; a call in which `ds.Ping`
succeeds logs no error entry and returns true. A run of `main` that has exited
has either made no ping at all or had a ping succeed. -/
theorem pingProbe_logs_and_absorbs_failure (w : World) (n fuel : Nat) :
    (∀ err, w.pingErr n = some err →
      pingProbe w n = (false, n + 1,
        [.ping (some err), .logError ("failed to ping datastore.\nerr: " ++ err)]) ∧
      (pingProbe w n).2.2.filter Event.isError
        = [.logError ("failed to ping datastore.\nerr: " ++ err)] ∧
      (pingProbe w n).2.2.countP Event.isFatal = 0 ∧
      ∀ acc, blockAndRetry w.durationString (5 * Second) (pingProbe w) (fuel + 1) n acc
        = blockAndRetry w.durationString (5 * Second) (pingProbe w) fuel (n + 1)
            (acc ++ [.call false (pingProbe w n).2.2,
              .printf (retryNotice w.durationString (5 * Second)), .sleep (5 * Second)])) ∧
    (w.pingErr n = none →
      pingProbe w n = (true, n + 1, [.ping none]) ∧
      (pingProbe w n).2.2.countP Event.isError = 0 ∧
      (pingProbe w n).2.2.countP Event.isFatal = 0) ∧
    ((main w fuel).outcome = .exited →
      (main w fuel).log.countP Event.isPing = 0 ∨ Event.ping none ∈ (main w fuel).log) := by
  refine ⟨?_, ?_, shape_exit w fuel _ (main_shape w fuel)⟩
  · intro err herr
    have hp : pingProbe w n = (false, n + 1,
        [.ping (some err), .logError ("failed to ping datastore.\nerr: " ++ err)]) := by
      simp [pingProbe, herr]
    refine ⟨hp, ?_, ?_, ?_⟩
    · rw [hp]; simp [List.filter, Event.isError]
    · rw [hp]; simp [List.countP_cons, Event.isFatal]
    · intro acc
      have := blockAndRetry_failure w.durationString (5 * Second) (pingProbe w) fuel n acc
        (by rw [hp])
      rw [this, pingProbe_state]
  · intro hok
    have hp : pingProbe w n = (true, n + 1, [.ping none]) := by simp [pingProbe, hok]
    refine ⟨hp, ?_, ?_⟩ <;> rw [hp] <;> rfl

theorem pingProbe_logs_and_absorbs_failure_witness :
    sampleWorld.pingErr 0 = some "connection refused" ∧
    pingProbe sampleWorld 0 = (false, 0 + 1,
      [.ping (some "connection refused"),
       .logError ("failed to ping datastore.\nerr: " ++ "connection refused")]) :=
  have h : sampleWorld.pingErr 0 = some "connection refused" := by decide
  ⟨h, ((pingProbe_logs_and_absorbs_failure sampleWorld 0 3).1 _ h).1⟩

end Parrot
